import Mathlib

/-!
Shallow embedding of `app/app.py` from the fastapi-users-jinja2 repository.

The application is a FastAPI app.  Route handlers are embedded as pure Lean
functions.  The library calls that the handlers delegate to
(`user_manager.authenticate`, `auth_backend.login`, `user_manager.create`,
`auth_backend.logout`) are passed in as function parameters, and each handler
additionally returns the list of library calls it performed, so that claims
about which library functions a handler does or does not call can be stated.

Responses are modelled by their status code and raw header list
(`Response.raw_headers` in Starlette); template responses and JSON responses
are separate constructors of `HandlerResult`.
-/

namespace App

/-- An opaque HTTP request (the handlers never inspect it). -/
abbrev Request := Nat

/-- An opaque authentication strategy (`auth_backend.get_strategy`);
the handlers only pass it through to the backend. -/
abbrev Strategy := Nat

/-- The user entity; the handlers only ever read `email`. -/
structure User where
  email : String
deriving DecidableEq, Repr

/-- `OAuth2PasswordRequestForm(username=email, password=password)`. -/
structure Credentials where
  username : String
  password : String
deriving DecidableEq, Repr

/-- A Starlette response: status code and raw header list. -/
structure HResp where
  status : Nat
  raw_headers : List (String × String)
deriving DecidableEq, Repr

/-- `RedirectResponse(path, status_code=...)`: Starlette stores the target in
the (lower-cased) `location` raw header. -/
def RedirectResponse (path : String) (status_code : Nat) : HResp :=
  { status := status_code, raw_headers := [("location", path)] }

/-- `fastapi.exceptions.HTTPException(status_code=..., detail=..., headers=...)`. -/
structure HTTPExc where
  status_code : Nat
  detail : String
  headers : List (String × String)
deriving DecidableEq, Repr

/-- The exceptions `user_manager.create` can raise
(`fastapi_users.exceptions`). -/
inductive CreateError where
  | userAlreadyExists
  | invalidPasswordException (reason : String)
deriving DecidableEq, Repr

/-- What a handler returns: a template render (`templates.TemplateResponse`
with its context), a plain response (redirects), or a JSON message. -/
inductive HandlerResult where
  | render (name : String) (context : List (String × String))
  | resp (r : HResp)
  | jsonMessage (msg : String)
deriving DecidableEq, Repr

/-- The library calls a handler delegates to, recorded in order. -/
inductive LibCall where
  | authenticate (c : Credentials)
  | backendLogin (s : Strategy) (u : User)
  | onAfterLogin (u : User)
  | create (email password : String)
  | backendLogout (s : Strategy) (u : User) (t : String)
deriving DecidableEq, Repr

/-- `not_found_exception_handler` (app.py lines 37-39): the 404 handler. -/
def not_found_exception_handler (request : Request) (exc : HTTPExc) : HResp :=
  RedirectResponse "/" 303

/-- `unauthorized_exception_handler` (app.py lines 42-44): the 401 handler. -/
def unauthorized_exception_handler (request : Request) (exc : HTTPExc) : HResp :=
  RedirectResponse "/" 303

/-- FastAPI dispatch of a raised `HTTPException`: the handlers registered with
`app.exception_handler(404)` and `app.exception_handler(401)` run for those
status codes; otherwise the framework default returns the exception's own
status code and headers. -/
def handle_http_exception (request : Request) (e : HTTPExc) : HResp :=
  if e.status_code = 404 then not_found_exception_handler request e
  else if e.status_code = 401 then unauthorized_exception_handler request e
  else { status := e.status_code, raw_headers := e.headers }

/-- `authenticated_route` (app.py lines 72-74): returns
`{"message": f"Hello {user.email}!"}`. -/
def authenticated_route (user : User) : HandlerResult :=
  .jsonMessage ("Hello " ++ user.email ++ "!")

/-- `auth_redirect` dependency (app.py lines 77-82): raises
`HTTPException(status_code=302, detail="Not authorized",
headers={"Location": "/my-login"})` when `current_user` yields `None`. -/
def auth_redirect (user : Option User) : Except HTTPExc User :=
  match user with
  | none =>
      .error { status_code := 302, detail := "Not authorized",
               headers := [("Location", "/my-login")] }
  | some u => .ok u

/-- `mixin_redirect` (app.py lines 84-87).  The Python default for `path`
is `'/'`; call sites that rely on the default pass `"/"` explicitly here. -/
def mixin_redirect (res : HResp) (path : String) : HResp :=
  let redirect := RedirectResponse path 303
  { redirect with raw_headers := redirect.raw_headers ++ res.raw_headers }

/-- `index` handler body (app.py lines 90-92), run after the
`auth_redirect` dependency succeeded. -/
def index (request : Request) (user : User) : HandlerResult :=
  .render "index.html" []

/-- `GET /` as a whole: FastAPI resolves `Depends(auth_redirect)` first; if it
raises, the handler body never runs and the exception propagates. -/
def index_route (request : Request) (user : Option User) :
    Except HTTPExc HandlerResult :=
  (auth_redirect user).map (fun u => index request u)

/-- `login_get` (app.py lines 95-99). -/
def login_get (request : Request) (user : Option User) : HandlerResult :=
  match user with
  | some _ => .resp (RedirectResponse "/" 303)
  | none => .render "login.html" []

/-- `login_post` (app.py lines 102-121).  `authenticate` stands for
`user_manager.authenticate`, `backend_login` for `auth_backend.login`.
Returns the handler result together with the library calls made. -/
def login_post (request : Request) (strategy : Strategy)
    (authenticate : Credentials → Option User)
    (backend_login : Strategy → User → HResp)
    (email password : String) : HandlerResult × List LibCall :=
  let credentials : Credentials := { username := email, password := password }
  match authenticate credentials with
  | none =>
      (.render "login.html"
        [("exceptions", "there is no user with this username and password")],
       [.authenticate credentials])
  | some user =>
      let response := backend_login strategy user
      (.resp (mixin_redirect response "/"),
       [.authenticate credentials, .backendLogin strategy user,
        .onAfterLogin user])

/-- `register_get` (app.py lines 124-131). -/
def register_get (request : Request) (user : Option User) : HandlerResult :=
  match user with
  | some _ => .resp (RedirectResponse "/" 303)
  | none => .render "register.html" []

/-- `register_post` (app.py lines 134-156).  `create` stands for
`user_manager.create`; only `exceptions.UserAlreadyExists` is caught,
every other exception propagates (modelled by `.error`). -/
def register_post (request : Request)
    (create : String → String → Except CreateError User)
    (email password : String) : Except CreateError HandlerResult :=
  match create email password with
  | .ok _user => .ok (.render "login.html" [])
  | .error .userAlreadyExists =>
      .ok (.render "register.html" [("exceptions", "UserAlreadyExists")])
  | .error e => .error e

/-- `logout_post` (app.py lines 159-166).  `backend_logout` stands for
`auth_backend.logout`; note the relative redirect target `'my-login'`. -/
def logout_post (user_token : User × String) (strategy : Strategy)
    (backend_logout : Strategy → User → String → HResp) :
    HandlerResult × List LibCall :=
  let user := user_token.1
  let token := user_token.2
  let response := backend_logout strategy user token
  (.resp (mixin_redirect response "my-login"),
   [.backendLogout strategy user token])

/-- The routes the application defines itself with `@app.get` / `@app.post`
decorators, in order of appearance in `app/app.py`. -/
def app_own_routes : List (String × String) :=
  [("GET", "/authenticated-route"),
   ("GET", "/"),
   ("GET", "/my-login"),
   ("POST", "/my-login"),
   ("GET", "/register"),
   ("POST", "/register"),
   ("POST", "/logout")]

/-- The mount points passed to `app.include_router` (app.py lines 47-69),
in order: auth router, register router, reset-password router, verify
router, users router. -/
def router_mounts : List String :=
  ["/auth/jwt", "/auth", "/auth", "/auth", "/users"]

/-- The template name a handler result renders, if any. -/
def renderedTemplate : HandlerResult → Option String
  | .render name _ => some name
  | _ => none

/-- `renderedTemplate` lifted over a possibly-propagating exception. -/
def okTemplate : Except CreateError HandlerResult → Option String
  | .error _ => none
  | .ok r => renderedTemplate r

/-- A concrete user, for witnesses. -/
def exUser : User := { email := "alice@example.com" }

/-- A concrete `user_manager.authenticate` that accepts every credential. -/
def exAuthOk : Credentials → Option User := fun _ => some exUser

/-- A concrete `user_manager.authenticate` that rejects every credential. -/
def exAuthNone : Credentials → Option User := fun _ => none

/-- A concrete `auth_backend.login` response carrying a session cookie. -/
def exLoginResp : Strategy → User → HResp :=
  fun _ _ => { status := 200,
               raw_headers := [("set-cookie", "fastapiusersauth=token123")] }

/-- A concrete `user_manager.create` that always reports a duplicate user. -/
def exCreateDup : String → String → Except CreateError User :=
  fun _ _ => .error .userAlreadyExists

/-- A concrete `auth_backend.logout` response clearing the session cookie. -/
def exLogoutResp : Strategy → User → String → HResp :=
  fun _ _ _ => { status := 204,
                 raw_headers := [("set-cookie", "fastapiusersauth=")] }

/-- C1: posting valid credentials to POST /my-login (i.e. `authenticate`
returns a user) makes the handler call `auth_backend.login`, and the
returned response is a 303 redirect to "/" whose headers include every
header of the backend's login response. -/
theorem login_post_valid_credentials (request : Request) (strategy : Strategy)
    (authenticate : Credentials → Option User)
    (backend_login : Strategy → User → HResp)
    (email password : String) (user : User)
    (h : authenticate { username := email, password := password } = some user) :
    LibCall.backendLogin strategy user ∈
      (login_post request strategy authenticate backend_login email password).2 ∧
    (login_post request strategy authenticate backend_login email password).1 =
      .resp (mixin_redirect (backend_login strategy user) "/") ∧
    (mixin_redirect (backend_login strategy user) "/").status = 303 ∧
    (mixin_redirect (backend_login strategy user) "/").raw_headers =
      ("location", "/") :: (backend_login strategy user).raw_headers ∧
    ∀ hd ∈ (backend_login strategy user).raw_headers,
      hd ∈ (mixin_redirect (backend_login strategy user) "/").raw_headers := by
  refine ⟨?_, ?_, rfl, rfl, ?_⟩
  · simp [login_post, h]
  · simp [login_post, h]
  · intro hd hmem
    exact List.mem_cons_of_mem _ hmem

/-- C1 witness: a concrete valid login redirects through `mixin_redirect`. -/
theorem login_post_valid_credentials_witness :
    (login_post 0 0 exAuthOk exLoginResp "alice@example.com" "pw").1 =
      .resp (mixin_redirect (exLoginResp 0 exUser) "/") :=
  (login_post_valid_credentials 0 0 exAuthOk exLoginResp
    "alice@example.com" "pw" exUser rfl).2.1

/-- C2: POST /register catches exactly the duplicate-user exception
(`UserAlreadyExists`), rendering the register template with an exception
message; every other exception raised by `user_manager.create`
propagates uncaught. -/
theorem register_post_catches_only_duplicate (request : Request)
    (create : String → String → Except CreateError User)
    (email password : String) :
    (create email password = .error .userAlreadyExists →
      register_post request create email password =
        .ok (.render "register.html" [("exceptions", "UserAlreadyExists")])) ∧
    (∀ e : CreateError, e ≠ .userAlreadyExists →
      create email password = .error e →
      register_post request create email password = .error e) := by
  constructor
  · intro h; simp [register_post, h]
  · intro e he h
    cases e with
    | userAlreadyExists => exact absurd rfl he
    | invalidPasswordException r => simp [register_post, h]

/-- C2 witness: a duplicate-user registration renders the register
template with the exception message. -/
theorem register_post_catches_only_duplicate_witness :
    register_post 0 exCreateDup "alice@example.com" "pw" =
      .ok (.render "register.html" [("exceptions", "UserAlreadyExists")]) :=
  (register_post_catches_only_duplicate 0 exCreateDup
    "alice@example.com" "pw").1 rfl

/-- C3 counterexample: the application also defines the route
`GET /authenticated-route`, which is not among the four claimed paths. -/
theorem app_routes_counterexample :
    ("GET", "/authenticated-route") ∈ app_own_routes ∧
    "/authenticated-route" ∉
      (["/", "/my-login", "/register", "/logout"] : List String) := by
  decide

/-- C3 (amended): the application's own routes are exactly
/authenticated-route, /, /my-login, /register and /logout, and the
library routers are mounted only under /auth (including /auth/jwt)
and /users. -/
theorem app_routes_amended :
    (app_own_routes.map Prod.snd).dedup =
      ["/authenticated-route", "/", "/my-login", "/register", "/logout"] ∧
    router_mounts.dedup = ["/auth/jwt", "/auth", "/users"] := by
  decide

/-- C4 counterexample: three pairwise-distinct templates are rendered
(index.html, login.html, register.html), so the set of rendered templates
has 3 > 2 elements; moreover the /authenticated-route handler returns a
JSON message, neither a render nor a redirect. -/
theorem templates_counterexample :
    renderedTemplate (index 0 exUser) = some "index.html" ∧
    renderedTemplate (login_get 0 none) = some "login.html" ∧
    renderedTemplate (register_get 0 none) = some "register.html" ∧
    (["index.html", "login.html", "register.html"] : List String).dedup.length
      = 3 ∧
    ¬ (["index.html", "login.html", "register.html"] :
        List String).dedup.length ≤ 2 ∧
    authenticated_route exUser = .jsonMessage "Hello alice@example.com!" := by
  decide

/-- C4 (amended): every handler either renders one of three static
templates (index.html, login.html, register.html) or issues a
redirect/plain response, except /authenticated-route which returns a JSON
greeting; all three templates are attained, so the set of rendered
templates has exactly three elements. -/
theorem templates_amended (request : Request) (u : User) (uo : Option User)
    (strategy : Strategy) (authenticate : Credentials → Option User)
    (backend_login : Strategy → User → HResp)
    (create : String → String → Except CreateError User)
    (backend_logout : Strategy → User → String → HResp)
    (token email password : String) :
    renderedTemplate (index request u) = some "index.html" ∧
    renderedTemplate (login_get request none) = some "login.html" ∧
    renderedTemplate (register_get request none) = some "register.html" ∧
    renderedTemplate (login_get request uo) ∈
      ([none, some "login.html"] : List (Option String)) ∧
    renderedTemplate (register_get request uo) ∈
      ([none, some "register.html"] : List (Option String)) ∧
    renderedTemplate
        (login_post request strategy authenticate backend_login
          email password).1 ∈
      ([none, some "login.html"] : List (Option String)) ∧
    okTemplate (register_post request create email password) ∈
      ([none, some "login.html", some "register.html"] :
        List (Option String)) ∧
    renderedTemplate (logout_post (u, token) strategy backend_logout).1
      = none ∧
    renderedTemplate (authenticated_route u) = none ∧
    authenticated_route u = .jsonMessage ("Hello " ++ u.email ++ "!") := by
  refine ⟨rfl, rfl, rfl, ?_, ?_, ?_, ?_, rfl, rfl, rfl⟩
  · cases uo <;> simp [login_get, renderedTemplate]
  · cases uo <;> simp [register_get, renderedTemplate]
  · cases h : authenticate { username := email, password := password } <;>
      simp [login_post, h, renderedTemplate]
  · cases h : create email password with
    | ok u2 => simp [register_post, h, okTemplate, renderedTemplate]
    | error e =>
        cases e <;> simp [register_post, h, okTemplate, renderedTemplate]

/-- C5: the installed 404 and 401 exception handlers both return a
303 See Other redirect to the home page "/". -/
theorem error_handlers_redirect_home (request : Request) (e : HTTPExc)
    (detail : String) (hs : List (String × String)) :
    not_found_exception_handler request e = RedirectResponse "/" 303 ∧
    unauthorized_exception_handler request e = RedirectResponse "/" 303 ∧
    handle_http_exception request
        { status_code := 404, detail := detail, headers := hs } =
      RedirectResponse "/" 303 ∧
    handle_http_exception request
        { status_code := 401, detail := detail, headers := hs } =
      RedirectResponse "/" 303 ∧
    RedirectResponse "/" 303 =
      { status := 303, raw_headers := [("location", "/")] } :=
  ⟨rfl, rfl, rfl, rfl, rfl⟩

/-- C6: `mixin_redirect res path` is a 303 redirect to `path` whose header
list is the redirect's own headers followed by a copy of every raw header
of `res`; it drops nothing from `res` and reads nothing of `res` besides
`raw_headers`. -/
theorem mixin_redirect_headers (res : HResp) (path : String) :
    mixin_redirect res path =
      { status := 303,
        raw_headers :=
          (RedirectResponse path 303).raw_headers ++ res.raw_headers } ∧
    (mixin_redirect res path).raw_headers =
      ("location", path) :: res.raw_headers ∧
    (∀ hd ∈ res.raw_headers,
      hd ∈ (mixin_redirect res path).raw_headers) ∧
    (∀ s : Nat,
      mixin_redirect { status := s, raw_headers := res.raw_headers } path =
        mixin_redirect res path) := by
  refine ⟨rfl, rfl, ?_, fun s => rfl⟩
  intro hd hmem
  exact List.mem_cons_of_mem _ hmem

/-- C6 witness: a concrete merge keeps the copied header after the
redirect's own location header. -/
theorem mixin_redirect_headers_witness :
    (mixin_redirect
        { status := 200, raw_headers := [("set-cookie", "x=1")] } "/"
      ).raw_headers = ("location", "/") :: [("set-cookie", "x=1")] :=
  (mixin_redirect_headers
    { status := 200, raw_headers := [("set-cookie", "x=1")] } "/").2.1

/-- C7: when `authenticate` returns None, POST /my-login renders the login
template with an exception message, never calls `auth_backend.login`, and
issues no redirect. -/
theorem login_post_invalid_credentials (request : Request)
    (strategy : Strategy) (authenticate : Credentials → Option User)
    (backend_login : Strategy → User → HResp) (email password : String)
    (h : authenticate { username := email, password := password } = none) :
    (login_post request strategy authenticate backend_login
        email password).1 =
      .render "login.html"
        [("exceptions", "there is no user with this username and password")] ∧
    (login_post request strategy authenticate backend_login
        email password).2 =
      [.authenticate { username := email, password := password }] ∧
    (∀ s u, LibCall.backendLogin s u ∉
      (login_post request strategy authenticate backend_login
        email password).2) ∧
    (∀ r, (login_post request strategy authenticate backend_login
        email password).1 ≠ HandlerResult.resp r) := by
  refine ⟨?_, ?_, ?_, ?_⟩ <;> simp [login_post, h]

/-- C7 witness: a concrete rejected login renders the login template with
the exception message. -/
theorem login_post_invalid_credentials_witness :
    (login_post 0 0 exAuthNone exLoginResp "alice@example.com" "pw").1 =
      .render "login.html"
        [("exceptions", "there is no user with this username and password")] :=
  (login_post_invalid_credentials 0 0 exAuthNone exLoginResp
    "alice@example.com" "pw" rfl).1

/-- C8: an unauthenticated GET / makes `auth_redirect` raise an
HTTPException with status 302 and a Location header of /my-login; since
302 is neither 404 nor 401, the installed handlers do not run and the
response keeps status 302 with Location /my-login, not the 401 handler's
redirect to "/". -/
theorem index_unauthenticated_redirect (request : Request) :
    index_route request none =
      .error { status_code := 302, detail := "Not authorized",
               headers := [("Location", "/my-login")] } ∧
    (302 : Nat) ≠ 401 ∧
    handle_http_exception request
        { status_code := 302, detail := "Not authorized",
          headers := [("Location", "/my-login")] } =
      { status := 302, raw_headers := [("Location", "/my-login")] } ∧
    ({ status := 302, raw_headers := [("Location", "/my-login")] } : HResp)
      ≠ RedirectResponse "/" 303 := by
  refine ⟨rfl, by decide, rfl, by decide⟩

/-- C8 witness: the concrete unauthenticated index outcome. -/
theorem index_unauthenticated_redirect_witness :
    index_route 0 none =
      .error { status_code := 302, detail := "Not authorized",
               headers := [("Location", "/my-login")] } :=
  (index_unauthenticated_redirect 0).1

/-- C9: POST /logout calls `auth_backend.logout` and returns a 303
redirect whose Location is the relative path "my-login" (not "/my-login"),
with all headers of the backend's logout response appended. -/
theorem logout_post_relative_redirect (user : User) (token : String)
    (strategy : Strategy)
    (backend_logout : Strategy → User → String → HResp) :
    (logout_post (user, token) strategy backend_logout).2 =
      [.backendLogout strategy user token] ∧
    (logout_post (user, token) strategy backend_logout).1 =
      .resp (mixin_redirect (backend_logout strategy user token)
        "my-login") ∧
    (mixin_redirect (backend_logout strategy user token)
      "my-login").status = 303 ∧
    (mixin_redirect (backend_logout strategy user token)
        "my-login").raw_headers =
      ("location", "my-login") ::
        (backend_logout strategy user token).raw_headers ∧
    ("my-login" : String) ≠ "/my-login" :=
  ⟨rfl, rfl, rfl, rfl, by decide⟩

/-- C9 witness: the concrete logout redirect targets "my-login". -/
theorem logout_post_relative_redirect_witness :
    (logout_post (exUser, "tok") 0 exLogoutResp).1 =
      .resp (mixin_redirect (exLogoutResp 0 exUser "tok") "my-login") :=
  (logout_post_relative_redirect exUser "tok" 0 exLogoutResp).2.1

/-- C10: GET /my-login and GET /register return a 303 redirect to "/" for
an authenticated user and never render their templates; the templates are
rendered exactly for unauthenticated clients. -/
theorem login_register_get_authenticated_redirect (request : Request)
    (u : User) :
    login_get request (some u) = .resp (RedirectResponse "/" 303) ∧
    register_get request (some u) = .resp (RedirectResponse "/" 303) ∧
    (∀ name ctx, login_get request (some u) ≠ .render name ctx) ∧
    (∀ name ctx, register_get request (some u) ≠ .render name ctx) ∧
    login_get request none = .render "login.html" [] ∧
    register_get request none = .render "register.html" [] := by
  refine ⟨rfl, rfl, ?_, ?_, rfl, rfl⟩ <;>
    simp [login_get, register_get]

/-- C10 witness: a concrete authenticated GET /my-login redirects home. -/
theorem login_register_get_authenticated_redirect_witness :
    login_get 0 (some exUser) = .resp (RedirectResponse "/" 303) :=
  (login_register_get_authenticated_redirect 0 exUser).1

end App

